import Mathlib

/-!
# Verification of the CRDP clipboard bridge and session lifecycle controller

Shallow embedding of `src/Sources/CRDP/CRDP.c` (the `macrdp` repository).
Byte buffers are `List Nat` with every element below 256; C strings are byte
lists without an embedded NUL, the terminator being implicit.  Fallible
external allocations (`calloc`, `freerdp_new`, `pthread_create`, ...) are
modelled by explicit oracle flags; the FreeRDP engine, the transport and the
local macOS clipboard are ports whose inputs appear as event parameters.
-/

namespace CRDP

/-! ## Clipboard transcoder

The outbound encoder is the inline loop of
`crdp_cliprdr_server_format_data_request` (format 13): each byte of the
NUL-terminated C string, terminator included, becomes the little-endian pair
`[byte, 0]`.  The inbound decoder is the inline loop of
`crdp_cliprdr_server_format_data_response`: pairs are read while two bytes
remain, a zero code unit stops the scan, and each code unit is emitted as
1/2/3 UTF-8 bytes depending on its range. -/

/-- Outbound UTF-16LE encoder: the loop `for (i = 0; i <= len; i++)
{ utf16[i*2] = text[i]; utf16[i*2+1] = 0; }` over the C string `text`
(whose byte at index `len` is the NUL terminator). -/
def utf16le_encode (text : List Nat) : List Nat :=
  (text ++ [0]).flatMap (fun b => [b % 256, 0])

/-- One UTF-16 code unit to UTF-8 bytes, as in
`crdp_cliprdr_server_format_data_response`: `< 0x80` one byte, `< 0x800`
two bytes, otherwise three bytes. -/
def utf16ToUtf8 (ch : Nat) : List Nat :=
  if ch < 0x80 then [ch]
  else if ch < 0x800 then [0xC0 ||| (ch >>> 6), 0x80 ||| (ch &&& 0x3F)]
  else [0xE0 ||| (ch >>> 12), 0x80 ||| ((ch >>> 6) &&& 0x3F), 0x80 ||| (ch &&& 0x3F)]

/-- Inbound UTF-16LE decoder: the loop `for (i = 0; i + 1 < len; i += 2)`
reading `ch = data[i] | (data[i+1] << 8)`, breaking at `ch == 0`, and
appending `utf16ToUtf8 ch` otherwise.  A trailing odd byte is ignored. -/
def utf16le_decode : List Nat → List Nat
  | b0 :: b1 :: rest =>
      let ch := b0 ||| (b1 <<< 8)
      if ch = 0 then [] else utf16ToUtf8 ch ++ utf16le_decode rest
  | _ => []

/-- Byte-level UTF-8 continuation-byte test (used only to state the
round-trip claim, which quantifies over valid UTF-8 strings). -/
def isUtf8Cont (b : Nat) : Bool := 0x80 ≤ b && b ≤ 0xBF

/-- Given a multi-byte lead `b` and the bytes after it, return the remainder
after one well-formed UTF-8 sequence starting at `b`, or `none` if the
sequence is ill-formed (standard table: overlongs and surrogates excluded). -/
def utf8SeqRestMulti (b : Nat) (rest : List Nat) : Option (List Nat) :=
  if 0xC2 ≤ b && b ≤ 0xDF then
    match rest with
    | c1 :: r => if isUtf8Cont c1 then some r else none
    | _ => none
  else if b = 0xE0 then
    match rest with
    | c1 :: c2 :: r =>
        if (0xA0 ≤ c1 && c1 ≤ 0xBF) && isUtf8Cont c2 then some r else none
    | _ => none
  else if (0xE1 ≤ b && b ≤ 0xEC) || b = 0xEE || b = 0xEF then
    match rest with
    | c1 :: c2 :: r => if isUtf8Cont c1 && isUtf8Cont c2 then some r else none
    | _ => none
  else if b = 0xED then
    match rest with
    | c1 :: c2 :: r =>
        if (0x80 ≤ c1 && c1 ≤ 0x9F) && isUtf8Cont c2 then some r else none
    | _ => none
  else if b = 0xF0 then
    match rest with
    | c1 :: c2 :: c3 :: r =>
        if (0x90 ≤ c1 && c1 ≤ 0xBF) && isUtf8Cont c2 && isUtf8Cont c3 then some r
        else none
    | _ => none
  else if 0xF1 ≤ b && b ≤ 0xF3 then
    match rest with
    | c1 :: c2 :: c3 :: r =>
        if isUtf8Cont c1 && isUtf8Cont c2 && isUtf8Cont c3 then some r else none
    | _ => none
  else if b = 0xF4 then
    match rest with
    | c1 :: c2 :: c3 :: r =>
        if (0x80 ≤ c1 && c1 ≤ 0x8F) && isUtf8Cont c2 && isUtf8Cont c3 then some r
        else none
    | _ => none
  else none

/-- Remainder after one well-formed UTF-8 sequence led by `b`: an ASCII lead
byte consumes nothing further, multi-byte leads are handled by
`utf8SeqRestMulti`. -/
def utf8SeqRest (b : Nat) (rest : List Nat) : Option (List Nat) :=
  if b ≤ 0x7F then some rest else utf8SeqRestMulti b rest

/-- Fuel-driven UTF-8 validity scan; `fuel` bounds the number of decoded
sequences, each of which consumes at least the lead byte. -/
def isValidUtf8Aux : Nat → List Nat → Bool
  | _, [] => true
  | 0, _ :: _ => false
  | fuel + 1, b :: rest =>
      match utf8SeqRest b rest with
      | some r => isValidUtf8Aux fuel r
      | none => false

/-- Standard UTF-8 validity checker over byte lists. -/
def isValidUtf8 (l : List Nat) : Bool := isValidUtf8Aux l.length l

/-! ## Clipboard channel protocol messages and handlers -/

/-- Messages the bridge can send to the server over the clipboard channel
(`ClientCapabilities`, `ClientFormatList`, `ClientFormatListResponse`,
`ClientFormatDataRequest`, `ClientFormatDataResponse`). -/
inductive ClipMsg where
  | capabilities (generalFlags : Nat)
  | formatList (formats : List Nat)
  | formatListResponse (ok : Bool)
  | formatDataRequest (formatId : Nat)
  | formatDataResponse (ok : Bool) (payload : List Nat)
  deriving DecidableEq, Repr

/-- `CB_USE_LONG_FORMAT_NAMES` general capability flag. -/
def CB_USE_LONG_FORMAT_NAMES : Nat := 2

/-- `CB_RESPONSE_OK` message flag. -/
def CB_RESPONSE_OK : Nat := 1

/-- `CB_CAPSTYPE_GENERAL` capability-set type. -/
def CB_CAPSTYPE_GENERAL : Nat := 1

/-- `crdp_cliprdr_send_client_format_list`: the unconditional two-entry
advertisement `[CF_UNICODETEXT = 13, CF_TEXT = 1]`. -/
def crdp_cliprdr_send_client_format_list : ClipMsg :=
  ClipMsg.formatList [13, 1]

/-- `crdp_cliprdr_send_client_capabilities`: one general capability set with
`CB_USE_LONG_FORMAT_NAMES`. -/
def crdp_cliprdr_send_client_capabilities : ClipMsg :=
  ClipMsg.capabilities CB_USE_LONG_FORMAT_NAMES

/-- The scan of `crdp_cliprdr_server_format_list`: `textFormatId` starts at
0; each entry with id 13 sets it to 13, an entry with id 1 sets it to 1 only
while it is still 0. -/
def crdp_find_text_format (formats : List Nat) : Nat :=
  formats.foldl
    (fun acc f => if f = 13 then 13 else if f = 1 ∧ acc = 0 then 1 else acc) 0

/-- Messages sent by `crdp_cliprdr_server_format_list`: first the success
format-list response, then a data request when a text format was selected. -/
def crdp_cliprdr_server_format_list (formats : List Nat) : List ClipMsg :=
  let textFormatId := crdp_find_text_format formats
  [ClipMsg.formatListResponse true] ++
    (if textFormatId ≠ 0 then [ClipMsg.formatDataRequest textFormatId] else [])

/-- `crdp_cliprdr_server_format_data_request`: `localText` is the result of
`crdp_clipboard_get_text()` (`none` = NULL).  Format 13 answers with the
UTF-16LE encoding of the text, format 1 with the raw bytes plus a NUL byte;
anything else, or no local text, answers `CB_RESPONSE_FAIL` with an empty
payload.  `calloc` is assumed to succeed. -/
def crdp_cliprdr_server_format_data_request
    (requestedFormatId : Nat) (localText : Option (List Nat)) : ClipMsg :=
  if requestedFormatId = 13 ∨ requestedFormatId = 1 then
    match localText with
    | some text =>
        if requestedFormatId = 13 then
          ClipMsg.formatDataResponse true (utf16le_encode text)
        else
          ClipMsg.formatDataResponse true (text ++ [0])
    | none => ClipMsg.formatDataResponse false []
  else
    ClipMsg.formatDataResponse false []

/-- `crdp_cliprdr_server_format_data_response`: returns `some t` when the
handler calls `crdp_clipboard_set_text(t)` and `none` when the local
clipboard is left untouched.  The guard is
`msgFlags & CB_RESPONSE_OK && requestedFormatData && dataLen > 0`, and the
write happens only when the decoded length `j` is positive. -/
def crdp_cliprdr_server_format_data_response
    (msgFlags : Nat) (payload : List Nat) : Option (List Nat) :=
  if msgFlags &&& CB_RESPONSE_OK ≠ 0 ∧ 0 < payload.length then
    let utf8 := utf16le_decode payload
    if 0 < utf8.length then some utf8 else none
  else
    none

/-! ## Clipboard channel state machine

`crdp_context`'s clipboard fields (`cliprdr`, `clipboardSync`,
`clipboardCapabilities`) and the handlers wired up by `crdp_cliprdr_init`,
viewed as a step function from channel events to a new state, the messages
sent on the channel, and an optional local-clipboard write. -/

/-- The clipboard-relevant fields of `crdp_context`: whether `ctx->cliprdr`
is non-NULL, the `clipboardSync` flag, and the recorded server capability
flags. -/
structure crdp_context_state where
  hasCliprdr : Bool
  clipboardSync : Bool
  clipboardCapabilities : Nat
  deriving DecidableEq, Repr

/-- Events delivered to the clipboard bridge after the channel connects:
the server-to-client cliprdr messages (with the data their handlers read
from the ports), the local clipboard-change notification, and channel
disconnect.  `serverCapabilities` carries `(capabilitySetType,
generalFlags)` pairs; `serverFormatDataRequest` carries the result of
`crdp_clipboard_get_text()`. -/
inductive ClipEvent where
  | monitorReady
  | serverCapabilities (sets : List (Nat × Nat))
  | serverFormatList (formats : List Nat)
  | serverFormatListResponse
  | serverLockClipboardData
  | serverUnlockClipboardData
  | serverFormatDataRequest (formatId : Nat) (localText : Option (List Nat))
  | serverFormatDataResponse (msgFlags : Nat) (payload : List Nat)
  | localClipboardChanged
  | channelDisconnected
  deriving DecidableEq, Repr

/-- Result of one bridge step: the new context, the messages sent to the
server, and the local-clipboard write, if any. -/
structure ClipStepOut where
  ctx : crdp_context_state
  sent : List ClipMsg
  clipboardWrite : Option (List Nat)
  deriving DecidableEq, Repr

/-- `crdp_cliprdr_init`: state created when the clipboard channel connects —
`cliprdr` set, `clipboardSync = FALSE`, `clipboardCapabilities = 0`. -/
def crdp_cliprdr_init : crdp_context_state :=
  { hasCliprdr := true, clipboardSync := false, clipboardCapabilities := 0 }

/-- One step of the clipboard bridge, dispatching exactly as the callbacks
registered in `crdp_cliprdr_init` do.  `monitorReady` sets `clipboardSync`
and sends capabilities then the format list; `localClipboardChanged` sends a
fresh format list only when `cliprdr` is set and `clipboardSync` is true;
`channelDisconnected` runs `crdp_cliprdr_uninit`, which clears `cliprdr`
(and, notably, does not touch `clipboardSync`). -/
def crdp_cliprdr_step (s : crdp_context_state) : ClipEvent → ClipStepOut
  | ClipEvent.monitorReady =>
      { ctx := { s with clipboardSync := true },
        sent := [crdp_cliprdr_send_client_capabilities,
                 crdp_cliprdr_send_client_format_list],
        clipboardWrite := none }
  | ClipEvent.serverCapabilities sets =>
      let caps :=
        sets.foldl (fun acc p => if p.1 = CB_CAPSTYPE_GENERAL then p.2 else acc)
          s.clipboardCapabilities
      { ctx := { s with clipboardCapabilities := caps },
        sent := [], clipboardWrite := none }
  | ClipEvent.serverFormatList formats =>
      { ctx := s, sent := crdp_cliprdr_server_format_list formats,
        clipboardWrite := none }
  | ClipEvent.serverFormatListResponse =>
      { ctx := s, sent := [], clipboardWrite := none }
  | ClipEvent.serverLockClipboardData =>
      { ctx := s, sent := [], clipboardWrite := none }
  | ClipEvent.serverUnlockClipboardData =>
      { ctx := s, sent := [], clipboardWrite := none }
  | ClipEvent.serverFormatDataRequest fmt localText =>
      { ctx := s,
        sent := [crdp_cliprdr_server_format_data_request fmt localText],
        clipboardWrite := none }
  | ClipEvent.serverFormatDataResponse msgFlags payload =>
      { ctx := s, sent := [],
        clipboardWrite := crdp_cliprdr_server_format_data_response msgFlags payload }
  | ClipEvent.localClipboardChanged =>
      if s.hasCliprdr ∧ s.clipboardSync then
        { ctx := s, sent := [crdp_cliprdr_send_client_format_list],
          clipboardWrite := none }
      else
        { ctx := s, sent := [], clipboardWrite := none }
  | ClipEvent.channelDisconnected =>
      { ctx := { s with hasCliprdr := false }, sent := [], clipboardWrite := none }

/-- Run the bridge over a sequence of events, keeping only the context. -/
def crdp_cliprdr_run (s : crdp_context_state) : List ClipEvent → crdp_context_state
  | [] => s
  | e :: es => crdp_cliprdr_run (crdp_cliprdr_step s e).ctx es

/-! ## Session lifecycle controller

`crdp_client` and the connect / worker / disconnect functions.  Pointers to
external resources (`freerdp* instance`, `pthread_t thread`) are modelled by
Booleans recording whether they are non-NULL / non-zero; allocation outcomes
come from an oracle. -/

/-- `crdp_config_t` (the C file also reads a `timeout_seconds` field).
`none` models a NULL string pointer. -/
structure crdp_config_t where
  host : Option String
  port : Nat
  username : Option String
  password : Option String
  domain : Option String
  width : Nat
  height : Nat
  enable_nla : Bool
  allow_gfx : Bool
  timeout_seconds : Nat
  drive_path : Option String
  drive_name : Option String
  deriving DecidableEq, Repr

/-- The all-zero configuration produced by `calloc`. -/
def crdp_config_zero : crdp_config_t :=
  { host := none, port := 0, username := none, password := none, domain := none,
    width := 0, height := 0, enable_nla := false, allow_gfx := false,
    timeout_seconds := 0, drive_path := none, drive_name := none }

/-- `struct crdp_client`: `hasInstance` models `instance != NULL`,
`hasThread` models a non-zero `pthread_t`. -/
structure crdp_client_state where
  hasInstance : Bool
  stop : Bool
  connected : Bool
  hasThread : Bool
  config : crdp_config_t
  deriving DecidableEq, Repr

/-- `crdp_client_new`: `calloc` zeroes every field. -/
def crdp_client_new : crdp_client_state :=
  { hasInstance := false, stop := false, connected := false, hasThread := false,
    config := crdp_config_zero }

/-- Outcomes of the local resource allocations attempted by
`crdp_client_connect`: `freerdp_new`, `freerdp_context_new`,
`pthread_create`. -/
structure AllocOracle where
  freerdpNewOk : Bool
  contextNewOk : Bool
  pthreadCreateOk : Bool
  deriving DecidableEq, Repr

/-- `crdp_client_connect` for a non-NULL client and config (the NULL-pointer
guard, return `-1`, is outside the model since Lean passes values): return
`0` immediately when already connected; otherwise copy the config, then fail
with `-2` / `-3` / `-4` on `freerdp_new` / `freerdp_context_new` /
`pthread_create` failure, and on success start the worker and return `0`.
The engine's connect outcome is consumed only by `crdp_thread_start`; it is
not an input here. -/
def crdp_client_connect (client : crdp_client_state) (config : crdp_config_t)
    (o : AllocOracle) : Int × crdp_client_state :=
  if client.connected then (0, client)
  else
    let c1 := { client with config := config }
    if !o.freerdpNewOk then (-2, c1)
    else if !o.contextNewOk then (-3, c1)
    else
      let c2 := { c1 with hasInstance := true, stop := false }
      if !o.pthreadCreateOk then (-4, { c2 with hasInstance := false })
      else (0, { c2 with hasThread := true })

/-- What one iteration of the worker's event loop observes: the `stop` flag,
`freerdp_shall_disconnect_context`, and the result of
`freerdp_check_event_handles`. -/
inductive PumpStep where
  | stopRequested
  | shallDisconnect
  | pumpFail
  | pumpOk
  deriving DecidableEq, Repr

/-- Why the worker's event loop ended. -/
inductive LoopExit where
  | stopped
  | remoteClosed
  | pumpFailed
  deriving DecidableEq, Repr

/-- Externally visible actions of the worker thread. -/
inductive WorkerEvent where
  | engineDisconnect
  | disconnectCallback
  deriving DecidableEq, Repr

/-- The worker's `while (!client->stop)` loop over a finite observation of
its environment; an exhausted schedule is read as the stop flag being set. -/
def crdp_worker_loop : List PumpStep → LoopExit
  | [] => LoopExit.stopped
  | PumpStep.stopRequested :: _ => LoopExit.stopped
  | PumpStep.shallDisconnect :: _ => LoopExit.remoteClosed
  | PumpStep.pumpFail :: _ => LoopExit.pumpFailed
  | PumpStep.pumpOk :: rest => crdp_worker_loop rest

/-- `crdp_thread_start`: on `freerdp_connect` failure jump straight to the
disconnect callback; on success run the loop, then always call
`freerdp_disconnect`, mark not-connected, and invoke the callback.  Returns
the loop's exit reason (when the loop ran) and the visible action trace. -/
def crdp_thread_start (connectOk : Bool) (sched : List PumpStep) :
    Option LoopExit × List WorkerEvent :=
  if connectOk then
    (some (crdp_worker_loop sched),
     [WorkerEvent.engineDisconnect, WorkerEvent.disconnectCallback])
  else
    (none, [WorkerEvent.disconnectCallback])

/-- Work performed by `crdp_client_disconnect` (it never invokes the
disconnect callback itself — that is the worker's job — and has no error
output). -/
inductive DisconnectAction where
  | abortConnect
  | joinThread
  | freeInstance
  deriving DecidableEq, Repr

/-- `crdp_client_disconnect` for a non-NULL client: set the stop flag, abort
any in-progress connect when an instance exists, join the worker when a
thread handle exists (zeroing it), free the instance when one exists, and
mark not-connected. -/
def crdp_client_disconnect (c : crdp_client_state) :
    crdp_client_state × List DisconnectAction :=
  ({ c with stop := true, hasThread := false, hasInstance := false,
            connected := false },
   (if c.hasInstance then [DisconnectAction.abortConnect] else []) ++
     (if c.hasThread then [DisconnectAction.joinThread] else []) ++
     (if c.hasInstance then [DisconnectAction.freeInstance] else []))

/-! ## Pre-connect settings and drive-path validation -/

/-- What `stat` reports for a path. -/
inductive StatKind where
  | dir
  | nonDir
  deriving DecidableEq, Repr

/-- The ambient filesystem: `stat` returns `none` when the call fails
(path does not exist). -/
structure Filesystem where
  stat : String → Option StatKind

/-- `crdp_validate_drive_path`: NULL or empty path, failing `stat`, or a
non-directory all yield false. -/
def crdp_validate_drive_path (fs : Filesystem) : Option String → Bool
  | none => false
  | some p =>
      if p = "" then false
      else
        match fs.stat p with
        | some StatKind.dir => true
        | _ => false

/-- The settings fields written by `crdp_pre_connect`. -/
structure rdpSettings where
  serverHostname : Option String
  serverPort : Nat
  desktopWidth : Nat
  desktopHeight : Nat
  colorDepth : Nat
  supportGraphicsPipeline : Bool
  nlaSecurity : Bool
  redirectClipboard : Bool
  deviceRedirection : Bool
  devices : List (String × String)
  staticChannels : List String
  username : Option String
  password : Option String
  domain : Option String
  tcpConnectTimeout : Option Nat
  deriving DecidableEq, Repr

/-- Outcomes of `freerdp_device_new` and `freerdp_device_collection_add`. -/
structure PreConnectOracle where
  deviceNewOk : Bool
  deviceAddOk : Bool
  deriving DecidableEq, Repr

/-- `crdp_pre_connect`: base settings (defaults 3389 / 1280x720, clipboard
redirection and the `cliprdr` channel always on), then drive redirection
only when `crdp_validate_drive_path` accepts the configured path — in which
case `DeviceRedirection` is enabled, and when device creation and collection
add both succeed the `(name, path)` device and the `rdpdr` channel are
added.  An invalid path only logs a warning.  The function returns TRUE on
every path modelled. -/
def crdp_pre_connect (cfg : crdp_config_t) (fs : Filesystem)
    (o : PreConnectOracle) : rdpSettings × Bool :=
  let s0 : rdpSettings :=
    { serverHostname := cfg.host,
      serverPort := if cfg.port ≠ 0 then cfg.port else 3389,
      desktopWidth := if cfg.width ≠ 0 then cfg.width else 1280,
      desktopHeight := if cfg.height ≠ 0 then cfg.height else 720,
      colorDepth := 32,
      supportGraphicsPipeline := cfg.allow_gfx,
      nlaSecurity := cfg.enable_nla,
      redirectClipboard := true,
      deviceRedirection := false,
      devices := [],
      staticChannels := ["cliprdr"],
      username := cfg.username,
      password := cfg.password,
      domain := cfg.domain,
      tcpConnectTimeout :=
        if 0 < cfg.timeout_seconds then some (cfg.timeout_seconds * 1000)
        else none }
  let s1 :=
    if crdp_validate_drive_path fs cfg.drive_path then
      let driveName :=
        match cfg.drive_name with
        | some n => if n = "" then "Mac" else n
        | none => "Mac"
      let s := { s0 with deviceRedirection := true }
      if o.deviceNewOk then
        if o.deviceAddOk then
          { s with devices := [(driveName, cfg.drive_path.getD "")],
                   staticChannels := s.staticChannels ++ ["rdpdr"] }
        else s
      else s
    else s0
  (s1, true)

/-! ## Input forwarding -/

/-- A keyboard event as forwarded to
`freerdp_input_send_keyboard_event(input, flags, code)`. -/
structure KeyboardInputEvent where
  flags : Nat
  code : Nat
  deriving DecidableEq, Repr

/-- `crdp_send_keyboard_event`: when the client, instance, context and input
interface all exist (`hasInput`), forward `(flags, (UINT8)scancode)`;
otherwise forward nothing (the C function returns `-1`). -/
def crdp_send_keyboard_event (hasInput : Bool) (flags scancode : Nat) :
    Option KeyboardInputEvent :=
  if hasInput then some { flags := flags, code := scancode % 256 } else none

/-! ## Helper lemmas -/

theorem utf16le_encode_cons (b : Nat) (s : List Nat) :
    utf16le_encode (b :: s) = b % 256 :: 0 :: utf16le_encode s := by
  simp [utf16le_encode]

theorem utf16le_encode_nil : utf16le_encode [] = [0, 0] := by
  simp [utf16le_encode]

theorem utf16le_decode_ascii_roundtrip (s : List Nat)
    (h : ∀ b ∈ s, 0 < b ∧ b < 0x80) :
    utf16le_decode (utf16le_encode s) = s := by
  induction s with
  | nil => simp [utf16le_encode_nil, utf16le_decode]
  | cons b t ih =>
      have hb := h b (List.mem_cons_self b t)
      have hmod : b % 256 = b := Nat.mod_eq_of_lt (by omega)
      have hne : b ≠ 0 := by omega
      rw [utf16le_encode_cons, hmod]
      show utf16le_decode (b :: 0 :: utf16le_encode t) = b :: t
      rw [utf16le_decode]
      simp only [Nat.zero_shiftLeft, Nat.or_zero]
      rw [if_neg hne]
      rw [utf16ToUtf8, if_pos hb.2]
      rw [ih (fun x hx => h x (List.mem_cons_of_mem b hx))]
      simp

theorem isValidUtf8_of_ascii (s : List Nat) (h : ∀ b ∈ s, 0 < b ∧ b < 0x80) :
    isValidUtf8 s = true := by
  induction s with
  | nil => rfl
  | cons b t ih =>
      have hb := h b (List.mem_cons_self b t)
      show isValidUtf8Aux (t.length + 1) (b :: t) = true
      rw [isValidUtf8Aux, utf8SeqRest, if_pos (by omega : b ≤ 0x7F)]
      exact ih (fun x hx => h x (List.mem_cons_of_mem b hx))

theorem utf16le_encode_eq_body_append (text : List Nat) :
    utf16le_encode text = text.flatMap (fun b => [b % 256, 0]) ++ [0, 0] := by
  simp [utf16le_encode]

theorem utf16le_encode_length (text : List Nat) :
    (utf16le_encode text).length = 2 * (text.length + 1) := by
  induction text with
  | nil => simp [utf16le_encode_nil]
  | cons b t ih => rw [utf16le_encode_cons]; simp only [List.length_cons, ih]; ring

theorem crdp_find_text_format_from13 (l : List Nat) :
    l.foldl (fun acc f => if f = 13 then 13 else if f = 1 ∧ acc = 0 then 1 else acc)
      13 = 13 := by
  induction l with
  | nil => rfl
  | cons f t ih =>
      by_cases h : f = 13 <;> simp [h, List.foldl_cons, ih]

theorem crdp_find_text_format_from1 (l : List Nat) :
    l.foldl (fun acc f => if f = 13 then 13 else if f = 1 ∧ acc = 0 then 1 else acc)
      1 = if 13 ∈ l then 13 else 1 := by
  induction l with
  | nil => rfl
  | cons f t ih =>
      by_cases h : f = 13
      · simp [h, List.foldl_cons, crdp_find_text_format_from13]
      · simp [h, (show ¬13 = f from fun hh => h hh.symm), List.foldl_cons, ih]

theorem crdp_find_text_format_eq (l : List Nat) :
    crdp_find_text_format l =
      if 13 ∈ l then 13 else if 1 ∈ l then 1 else 0 := by
  unfold crdp_find_text_format
  induction l with
  | nil => rfl
  | cons f t ih =>
      by_cases h13 : f = 13
      · simp [h13, List.foldl_cons, crdp_find_text_format_from13]
      · by_cases h1 : f = 1
        · simp [h13, h1, List.foldl_cons, crdp_find_text_format_from1]
        · simp [h13, h1, (show ¬13 = f from fun hh => h13 hh.symm),
            (show ¬1 = f from fun hh => h1 hh.symm), List.foldl_cons, ih]

/-! ## Claim theorems -/

/-- **C1** (counterexample).  The byte string `C3 A9` (the two-byte UTF-8
encoding of U+00E9) is valid UTF-8 with no embedded NUL, yet decoding the
buffer produced by the outbound encoder does not give it back: the encoder
widens each UTF-8 *byte* to a UTF-16 code unit, so the decoder re-encodes
`0xC3` and `0xA9` as two bytes each, yielding `C3 83 C2 A9`. -/
theorem c1_roundtrip_counterexample :
    isValidUtf8 [0xC3, 0xA9] = true ∧ (0 : Nat) ∉ [0xC3, 0xA9] ∧
      utf16le_decode (utf16le_encode [0xC3, 0xA9]) ≠ [0xC3, 0xA9] := by
  refine ⟨by decide, by decide, ?_⟩
  decide

/-- **C1** (amended).  For every ASCII string — every byte below `0x80` —
without an embedded NUL byte, decoding the UTF-16LE buffer produced by the
bridge's outbound encoder with the bridge's inbound decoder yields the
string again (and such a string is valid UTF-8).  The encoder is byte-wise,
so the round trip holds exactly on the ASCII subset of valid UTF-8. -/
theorem c1_utf16le_roundtrip_ascii (s : List Nat)
    (hascii : ∀ b ∈ s, b < 0x80) (hnul : (0 : Nat) ∉ s) :
    isValidUtf8 s = true ∧ utf16le_decode (utf16le_encode s) = s := by
  have h : ∀ b ∈ s, 0 < b ∧ b < 0x80 := by
    intro b hb
    exact ⟨Nat.pos_of_ne_zero (fun h0 => hnul (h0 ▸ hb)), hascii b hb⟩
  exact ⟨isValidUtf8_of_ascii s h, utf16le_decode_ascii_roundtrip s h⟩

/-- Witness for C1 (amended) at the ASCII string "hi" = `[0x68, 0x69]`. -/
theorem c1_utf16le_roundtrip_ascii_witness :
    isValidUtf8 [0x68, 0x69] = true ∧
      utf16le_decode (utf16le_encode [0x68, 0x69]) = [0x68, 0x69] :=
  c1_utf16le_roundtrip_ascii [0x68, 0x69] (by decide) (by decide)

/-- **C3**.  For every server format list: the handler's first message is
always the success-flagged format-list response, followed by a data request
for format 13 when 13 is advertised, else for format 1 when 1 is advertised,
and by no data request when neither is. -/
theorem c3_server_format_list_selection (formats : List Nat) :
    crdp_cliprdr_server_format_list formats =
      ClipMsg.formatListResponse true ::
        (if 13 ∈ formats then [ClipMsg.formatDataRequest 13]
         else if 1 ∈ formats then [ClipMsg.formatDataRequest 1]
         else []) ∧
    (crdp_cliprdr_server_format_list formats).head? =
      some (ClipMsg.formatListResponse true) := by
  have hsel : crdp_cliprdr_server_format_list formats =
      ClipMsg.formatListResponse true ::
        (if 13 ∈ formats then [ClipMsg.formatDataRequest 13]
         else if 1 ∈ formats then [ClipMsg.formatDataRequest 1]
         else []) := by
    unfold crdp_cliprdr_server_format_list
    rw [crdp_find_text_format_eq]
    by_cases h13 : 13 ∈ formats
    · simp [h13]
    · by_cases h1 : 1 ∈ formats <;> simp [h13, h1]
  exact ⟨hsel, by rw [hsel]; rfl⟩

/-- **C4**.  For every server data request: format 13 with local text
answers success with the UTF-16LE transcoding of the text followed by a
two-byte zero code unit (an even-length buffer, `68 00 69 00 00 00` for
"hi"); format 1 answers success with the 8-bit bytes plus a zero byte; no
local text, or a format other than 13 and 1, answers failure with an empty
payload. -/
theorem c4_server_format_data_request (text : List Nat) (fmt : Nat) :
    crdp_cliprdr_server_format_data_request 13 (some text) =
      ClipMsg.formatDataResponse true
        (text.flatMap (fun b => [b % 256, 0]) ++ [0, 0]) ∧
    (utf16le_encode text).length = 2 * (text.length + 1) ∧
    (utf16le_encode text).length % 2 = 0 ∧
    crdp_cliprdr_server_format_data_request 1 (some text) =
      ClipMsg.formatDataResponse true (text ++ [0]) ∧
    crdp_cliprdr_server_format_data_request fmt none =
      ClipMsg.formatDataResponse false [] ∧
    (fmt ≠ 13 → fmt ≠ 1 → ∀ localText,
      crdp_cliprdr_server_format_data_request fmt localText =
        ClipMsg.formatDataResponse false []) ∧
    crdp_cliprdr_server_format_data_request 13 (some [0x68, 0x69]) =
      ClipMsg.formatDataResponse true [0x68, 0, 0x69, 0, 0, 0] := by
  refine ⟨?_, utf16le_encode_length text, ?_, ?_, ?_, ?_, by decide⟩
  · rw [← utf16le_encode_eq_body_append]
    simp [crdp_cliprdr_server_format_data_request]
  · rw [utf16le_encode_length]; omega
  · simp [crdp_cliprdr_server_format_data_request]
  · by_cases h : fmt = 13 ∨ fmt = 1 <;>
      simp [crdp_cliprdr_server_format_data_request, h]
  · intro h13 h1 localText
    simp [crdp_cliprdr_server_format_data_request, h13, h1]

/-- Witness for C4 at text "hi" and the unrecognized format 7. -/
theorem c4_server_format_data_request_witness :
    crdp_cliprdr_server_format_data_request 7 (some [0x68, 0x69]) =
      ClipMsg.formatDataResponse false [] :=
  (c4_server_format_data_request [0x68, 0x69] 7).2.2.2.2.2.1
    (by decide) (by decide) (some [0x68, 0x69])

/-- **C5** (counterexample).  The success-flagged response with the
non-empty payload `00 00` does *not* write the decoded (empty) text to the
local clipboard: the handler returns no write, while the claim as stated
requires a write of the transcoding. -/
theorem c5_server_data_response_counterexample :
    (1 &&& CB_RESPONSE_OK ≠ 0) ∧ ([0, 0] : List Nat) ≠ [] ∧
      crdp_cliprdr_server_format_data_response 1 [0, 0] ≠
        some (utf16le_decode [0, 0]) := by
  refine ⟨by decide, by decide, ?_⟩
  decide

/-- **C5** (amended).  For every server data response: if it is
success-flagged, its payload is non-empty, and the UTF-16LE decoding of the
payload (read up to the first zero code unit or the end of the buffer) is
non-empty, the bridge writes that decoding to the local clipboard (payload
`41 00 00 00` sets the clipboard to "A"); if the response is
failure-flagged or its payload is empty, the local clipboard is left
unchanged. -/
theorem c5_server_data_response (msgFlags : Nat) (payload : List Nat) :
    (msgFlags &&& CB_RESPONSE_OK ≠ 0 → payload ≠ [] →
        utf16le_decode payload ≠ [] →
        crdp_cliprdr_server_format_data_response msgFlags payload =
          some (utf16le_decode payload)) ∧
    (msgFlags &&& CB_RESPONSE_OK = 0 →
        crdp_cliprdr_server_format_data_response msgFlags payload = none) ∧
    crdp_cliprdr_server_format_data_response msgFlags [] = none ∧
    crdp_cliprdr_server_format_data_response 1 [0x41, 0, 0, 0] =
      some [0x41] := by
  refine ⟨?_, ?_, ?_, by decide⟩
  · intro hok hne hdec
    have hlen : 0 < payload.length := List.length_pos.mpr hne
    have hdlen : 0 < (utf16le_decode payload).length := List.length_pos.mpr hdec
    simp [crdp_cliprdr_server_format_data_response, hok, hlen, hdlen]
  · intro hfail
    simp [crdp_cliprdr_server_format_data_response, hfail]
  · simp [crdp_cliprdr_server_format_data_response]

/-- Witness for C5 (amended) at the success flag and payload `41 00 00 00`. -/
theorem c5_server_data_response_witness :
    crdp_cliprdr_server_format_data_response 1 [0x41, 0, 0, 0] =
      some (utf16le_decode [0x41, 0, 0, 0]) :=
  (c5_server_data_response 1 [0x41, 0, 0, 0]).1 (by decide) (by decide) (by decide)

/-- **C10**.  A success-flagged, non-empty server data response whose
decoded text is empty (such as payload `00 00`) does not write to the local
clipboard; every write the handler performs carries at least one byte. -/
theorem c10_no_write_of_empty_decode :
    crdp_cliprdr_server_format_data_response 1 [0, 0] = none ∧
    ∀ msgFlags payload t,
      crdp_cliprdr_server_format_data_response msgFlags payload = some t →
        0 < t.length := by
  refine ⟨by decide, ?_⟩
  intro msgFlags payload t h
  unfold crdp_cliprdr_server_format_data_response at h
  split at h
  · by_cases hd : 0 < (utf16le_decode payload).length
    · rw [if_pos hd] at h
      cases h
      exact hd
    · rw [if_neg hd] at h
      cases h
  · cases h

/-- Witness for C10: the write produced by payload `41 00 00 00` is
non-empty. -/
theorem c10_no_write_of_empty_decode_witness : 0 < ([0x41] : List Nat).length :=
  c10_no_write_of_empty_decode.2 1 [0x41, 0, 0, 0] [0x41] (by decide)

theorem crdp_cliprdr_step_sync_of_ne (s : crdp_context_state) (e : ClipEvent)
    (h : e ≠ ClipEvent.monitorReady) :
    ((crdp_cliprdr_step s e).ctx).clipboardSync = s.clipboardSync := by
  cases e with
  | monitorReady => exact absurd rfl h
  | serverCapabilities sets => simp [crdp_cliprdr_step]
  | serverFormatList formats => simp [crdp_cliprdr_step]
  | serverFormatListResponse => simp [crdp_cliprdr_step]
  | serverLockClipboardData => simp [crdp_cliprdr_step]
  | serverUnlockClipboardData => simp [crdp_cliprdr_step]
  | serverFormatDataRequest fmt localText => simp [crdp_cliprdr_step]
  | serverFormatDataResponse msgFlags payload => simp [crdp_cliprdr_step]
  | localClipboardChanged =>
      by_cases hc : s.hasCliprdr ∧ s.clipboardSync <;>
        simp [crdp_cliprdr_step, hc]
  | channelDisconnected => simp [crdp_cliprdr_step]

theorem crdp_cliprdr_run_sync (evs : List ClipEvent) :
    ∀ s : crdp_context_state, ClipEvent.monitorReady ∉ evs →
      (crdp_cliprdr_run s evs).clipboardSync = s.clipboardSync := by
  induction evs with
  | nil => intro s _; rfl
  | cons e es ih =>
      intro s h
      have he : e ≠ ClipEvent.monitorReady :=
        fun hh => h (hh ▸ List.mem_cons_self e es)
      rw [crdp_cliprdr_run]
      rw [ih _ (fun hm => h (List.mem_cons_of_mem e hm))]
      exact crdp_cliprdr_step_sync_of_ne s e he

/-- **C2**.  `clipboardSync` is false from the moment the clipboard channel
connects (`crdp_cliprdr_init`) through any sequence of bridge events that
does not include monitor-ready; processing monitor-ready sets it to true;
and the local-clipboard-change handler sends no message at all to the
server while the flag is false. -/
theorem c2_clipboard_sync_gate (evs : List ClipEvent) :
    (ClipEvent.monitorReady ∉ evs →
      (crdp_cliprdr_run crdp_cliprdr_init evs).clipboardSync = false) ∧
    (∀ s : crdp_context_state,
      ((crdp_cliprdr_step s ClipEvent.monitorReady).ctx).clipboardSync = true) ∧
    (∀ s : crdp_context_state, s.clipboardSync = false →
      (crdp_cliprdr_step s ClipEvent.localClipboardChanged).sent = []) := by
  refine ⟨?_, ?_, ?_⟩
  · intro h
    rw [crdp_cliprdr_run_sync evs crdp_cliprdr_init h]
    rfl
  · intro s; simp [crdp_cliprdr_step]
  · intro s hs
    have hc : ¬(s.hasCliprdr ∧ s.clipboardSync) := by simp [hs]
    simp [crdp_cliprdr_step, hc]

/-- Witness for C2: a run over a format list and a local change (no
monitor-ready) leaves the flag false, and a local change in the
just-connected state sends nothing. -/
theorem c2_clipboard_sync_gate_witness :
    (crdp_cliprdr_run crdp_cliprdr_init
      [ClipEvent.serverFormatList [13],
       ClipEvent.localClipboardChanged]).clipboardSync = false ∧
    (crdp_cliprdr_step crdp_cliprdr_init
      ClipEvent.localClipboardChanged).sent = [] :=
  ⟨(c2_clipboard_sync_gate
      [ClipEvent.serverFormatList [13], ClipEvent.localClipboardChanged]).1
      (by decide),
   (c2_clipboard_sync_gate []).2.2 crdp_cliprdr_init rfl⟩

/-- **C6**.  `crdp_client_connect` on an already-connected client returns 0
with the client unchanged (no new worker, session kept); otherwise its
return value is 0 or one of the local resource-allocation failure codes, and
each failure code occurs exactly for its local allocation failure
(`-2` = engine-instance creation, `-3` = engine-context creation,
`-4` = worker-thread start).  Engine connect outcomes are not an input to
this function at all — they reach `crdp_thread_start` only — so they cannot
appear in the return value. -/
theorem c6_connect_local_errors_only (client : crdp_client_state)
    (cfg : crdp_config_t) (o : AllocOracle) :
    (client.connected = true → crdp_client_connect client cfg o = (0, client)) ∧
    ((crdp_client_connect client cfg o).1 = 0 ∨
     (crdp_client_connect client cfg o).1 = -2 ∨
     (crdp_client_connect client cfg o).1 = -3 ∨
     (crdp_client_connect client cfg o).1 = -4) ∧
    ((crdp_client_connect client cfg o).1 = -2 ↔
      client.connected = false ∧ o.freerdpNewOk = false) ∧
    ((crdp_client_connect client cfg o).1 = -3 ↔
      client.connected = false ∧ o.freerdpNewOk = true ∧
        o.contextNewOk = false) ∧
    ((crdp_client_connect client cfg o).1 = -4 ↔
      client.connected = false ∧ o.freerdpNewOk = true ∧
        o.contextNewOk = true ∧ o.pthreadCreateOk = false) := by
  unfold crdp_client_connect
  by_cases hc : client.connected = true
  · simp [hc]
  · have hc' : client.connected = false := by
      cases hcv : client.connected
      · rfl
      · exact absurd hcv hc
    obtain ⟨fn, cn, pc⟩ := o
    cases fn <;> cases cn <;> cases pc <;> simp [hc']

/-- Witness for C6: connecting an already-connected client is a no-op
returning 0. -/
theorem c6_connect_local_errors_only_witness :
    crdp_client_connect { crdp_client_new with connected := true }
        crdp_config_zero ⟨true, true, true⟩ =
      (0, { crdp_client_new with connected := true }) :=
  (c6_connect_local_errors_only { crdp_client_new with connected := true }
      crdp_config_zero ⟨true, true, true⟩).1 rfl

/-- **C7**.  `crdp_client_disconnect` is idempotent: before any connect it
performs no action (and it never signals an error or invokes the disconnect
callback itself — `DisconnectAction` has no such constructors), and a second
call after a completed one performs no action and leaves the state fixed.
The worker invokes the disconnect callback exactly once per run, as its last
action, on every exit path: connect failure, stop request, remote-initiated
disconnect, or pump failure; on the paths where the engine connected, the
engine teardown (`freerdp_disconnect`) precedes the callback. -/
theorem c7_disconnect_idempotent_callback_once (c : crdp_client_state)
    (connectOk : Bool) (sched : List PumpStep) :
    (crdp_client_disconnect crdp_client_new).2 = [] ∧
    (crdp_client_disconnect (crdp_client_disconnect c).1).2 = [] ∧
    (crdp_client_disconnect (crdp_client_disconnect c).1).1 =
      (crdp_client_disconnect c).1 ∧
    (crdp_thread_start connectOk sched).2.count
      WorkerEvent.disconnectCallback = 1 ∧
    (crdp_thread_start connectOk sched).2.getLast? =
      some WorkerEvent.disconnectCallback ∧
    (crdp_thread_start true sched).2 =
      [WorkerEvent.engineDisconnect, WorkerEvent.disconnectCallback] := by
  refine ⟨rfl, ?_, ?_, ?_, ?_, ?_⟩
  · simp [crdp_client_disconnect]
  · simp [crdp_client_disconnect]
  · cases connectOk <;> simp [crdp_thread_start, List.count_cons]
  · cases connectOk <;> simp [crdp_thread_start]
  · simp [crdp_thread_start]

/-- **C8**.  A shared-folder path that is unset, empty, non-existent, or
not a directory leaves pre-connect successful with drive redirection simply
not configured: no device is added, the `rdpdr` channel is not requested,
`DeviceRedirection` stays off, and the function still returns TRUE. -/
theorem c8_invalid_drive_path_is_benign (cfg : crdp_config_t)
    (fs : Filesystem) (o : PreConnectOracle)
    (h : cfg.drive_path = none ∨ cfg.drive_path = some "" ∨
      (∃ p, cfg.drive_path = some p ∧ fs.stat p = none) ∨
      (∃ p, cfg.drive_path = some p ∧ fs.stat p = some StatKind.nonDir)) :
    (crdp_pre_connect cfg fs o).2 = true ∧
    (crdp_pre_connect cfg fs o).1.devices = [] ∧
    "rdpdr" ∉ (crdp_pre_connect cfg fs o).1.staticChannels ∧
    (crdp_pre_connect cfg fs o).1.deviceRedirection = false := by
  have hv : crdp_validate_drive_path fs cfg.drive_path = false := by
    rcases h with h | h | ⟨p, hp, hs⟩ | ⟨p, hp, hs⟩
    · rw [h]; rfl
    · rw [h]; simp [crdp_validate_drive_path]
    · rw [hp]
      by_cases hpe : p = "" <;> simp [crdp_validate_drive_path, hpe, hs]
    · rw [hp]
      by_cases hpe : p = "" <;> simp [crdp_validate_drive_path, hpe, hs]
  refine ⟨rfl, ?_, ?_, ?_⟩
  · simp [crdp_pre_connect, hv]
  · simp [crdp_pre_connect, hv]
  · simp [crdp_pre_connect, hv]

/-- Witness for C8 at the spec's scenario: host `10.0.0.5`, drive path
`/tmp/doesnotexist`, on a filesystem where every `stat` fails. -/
theorem c8_invalid_drive_path_is_benign_witness :
    (crdp_pre_connect
        { host := some "10.0.0.5", port := 0, username := none,
          password := none, domain := none, width := 0, height := 0,
          enable_nla := false, allow_gfx := false, timeout_seconds := 0,
          drive_path := some "/tmp/doesnotexist", drive_name := none }
        { stat := fun _ => none } ⟨true, true⟩).2 = true ∧
    (crdp_pre_connect
        { host := some "10.0.0.5", port := 0, username := none,
          password := none, domain := none, width := 0, height := 0,
          enable_nla := false, allow_gfx := false, timeout_seconds := 0,
          drive_path := some "/tmp/doesnotexist", drive_name := none }
        { stat := fun _ => none } ⟨true, true⟩).1.devices = [] ∧
    "rdpdr" ∉ (crdp_pre_connect
        { host := some "10.0.0.5", port := 0, username := none,
          password := none, domain := none, width := 0, height := 0,
          enable_nla := false, allow_gfx := false, timeout_seconds := 0,
          drive_path := some "/tmp/doesnotexist", drive_name := none }
        { stat := fun _ => none } ⟨true, true⟩).1.staticChannels ∧
    (crdp_pre_connect
        { host := some "10.0.0.5", port := 0, username := none,
          password := none, domain := none, width := 0, height := 0,
          enable_nla := false, allow_gfx := false, timeout_seconds := 0,
          drive_path := some "/tmp/doesnotexist", drive_name := none }
        { stat := fun _ => none } ⟨true, true⟩).1.deviceRedirection = false :=
  c8_invalid_drive_path_is_benign _ _ _
    (Or.inr (Or.inr (Or.inl ⟨"/tmp/doesnotexist", rfl, rfl⟩)))

/-- **C9**.  `crdp_send_keyboard_event` truncates its 16-bit scancode to the
low 8 bits (`(UINT8)scancode`) before forwarding: the forwarded event
carries `scancode % 256`, so two scancodes congruent modulo 256 produce
identical forwarded events. -/
theorem c9_keyboard_scancode_truncation (hasInput : Bool)
    (flags s1 s2 : Nat) :
    crdp_send_keyboard_event true flags s1 =
      some { flags := flags, code := s1 % 256 } ∧
    (s1 % 256 = s2 % 256 →
      crdp_send_keyboard_event hasInput flags s1 =
        crdp_send_keyboard_event hasInput flags s2) := by
  refine ⟨rfl, ?_⟩
  intro h
  cases hasInput <;> simp [crdp_send_keyboard_event, h]

/-- Witness for C9 at scancodes 300 and 44 (300 = 256 + 44). -/
theorem c9_keyboard_scancode_truncation_witness :
    crdp_send_keyboard_event true 0 300 = crdp_send_keyboard_event true 0 44 :=
  (c9_keyboard_scancode_truncation true 0 300 44).2 (by decide)

end CRDP
